import Mathlib

/-
  Verification of the grid photo composition engine of the soso-click
  photobooth application.

  The definitions below are a shallow embedding of
  `src/frontend/src/utils/imageComposite.js` (functions
  `getPageSizeFromGrid` and `createGridComposite`).  JavaScript numbers
  are modelled by exact rationals (ℚ); `Math.round` (round half toward
  +∞) is modelled by `jround`; pixel counts are integers (ℤ); image
  pixel dimensions are naturals.  Asynchronous image loading is modelled
  by giving the composite function the list of decode results
  (`Option ImageDim`, `none` = the `img.onerror` path), which is joined
  before any layout work, exactly as the `Promise.all` barrier in the
  source.  The CropFill fit mode is not present under `src/`; it is
  modelled separately from the spec (see `cropFillPlan` below).
-/

/-- JavaScript `Math.round`: rounds half toward positive infinity. -/
def jround (x : ℚ) : ℤ := ⌊x + 1/2⌋

/-- Physical page size in inches, as returned by `getPageSizeFromGrid`. -/
structure PageSize where
  widthInches : ℚ
  heightInches : ℚ
  pageSize : String
deriving DecidableEq, Repr

/-- A grid object `{ cols, rows, id }`.  `cols = 0` models both a stored 0
and an absent (`undefined`) field: both are falsy in the JavaScript tests
`!grid.cols` and `grid.cols || 1`.  `id = none` models an absent id. -/
structure GridObj where
  cols : ℕ
  rows : ℕ
  id : Option String
deriving DecidableEq, Repr

/-- The argument of `getPageSizeFromGrid` can be `null`/`undefined`
(modelled `nil`), a plain string, or a grid object. -/
inductive GridArg where
  | nil : GridArg
  | str : String → GridArg
  | obj : GridObj → GridArg
deriving DecidableEq, Repr

/-- The fixed catalog `gridToPageSize` mapping grid ids to standard photo
print sizes (`imageComposite.js` lines 16-22). -/
def gridToPageSize (id : String) : Option PageSize :=
  if id = "5x5-single" then some ⟨5, 5, "5x5"⟩
  else if id = "4x6-single" then some ⟨4, 6, "4x6"⟩
  else if id = "2x4-vertical-2" then some ⟨2, 4, "2x4"⟩
  else if id = "4x6-4cut" then some ⟨4, 6, "4x6"⟩
  else if id = "5x7-6cut" then some ⟨5, 7, "5x7"⟩
  else none

/-- A standard print size entry of the `standardSizes` table. -/
structure StdSize where
  w : ℚ
  h : ℚ
  name : String
deriving DecidableEq, Repr

instance : Inhabited StdSize := ⟨⟨2, 4, "2x4"⟩⟩

/-- The `standardSizes` table (`imageComposite.js` lines 43-48). -/
def standardSizes : List StdSize :=
  [⟨2, 4, "2x4"⟩, ⟨4, 6, "4x6"⟩, ⟨5, 7, "5x7"⟩, ⟨8, 10, "8x10"⟩]

/-- The nearest-standard-size loop (`imageComposite.js` lines 50-60):
start from `standardSizes[0]`, scan the whole table, update on a strictly
smaller L1 distance (so the first entry wins ties). -/
def closestStd (w h : ℚ) : StdSize :=
  let first := standardSizes.headI
  (standardSizes.foldl
    (fun acc s =>
      let d := |w - s.w| + |h - s.h|
      if d < acc.2 then (s, d) else acc)
    (first, |w - first.w| + |h - first.h|)).1

/-- JavaScript `grid.cols || 1`: an absent or zero count becomes 1. -/
def colsOr1 (n : ℕ) : ℕ := if n = 0 then 1 else n

/-- The shape-derived fallback (`imageComposite.js` lines 29-66): a 2×3 inch
cell per grid slot with 0.1 inch margins, snapped to the nearest standard
size. -/
def shapeFallback (cols rows : ℕ) : PageSize :=
  let cellWidth : ℚ := 2
  let cellHeight : ℚ := 3
  let margin : ℚ := 1/10
  let widthInches := cellWidth * cols + margin * ((cols : ℚ) - 1)
  let heightInches := cellHeight * rows + margin * ((rows : ℚ) - 1)
  let c := closestStd widthInches heightInches
  ⟨c.w, c.h, c.name⟩

/-- `getPageSizeFromGrid` (`imageComposite.js` lines 8-67).  `!grid` is
true for `null`/`undefined` and for the empty string; a string argument
supplies the grid id (a string has no `cols`/`rows` fields, so both fall
back to 1); an object is always truthy and its `id` drives the catalog
lookup (`gridToPageSize[undefined]` misses). -/
def getPageSizeFromGrid : GridArg → PageSize
  | .nil => ⟨4, 6, "4x6"⟩
  | .str s =>
    if s = "" then ⟨4, 6, "4x6"⟩
    else
      match gridToPageSize s with
      | some p => p
      | none => shapeFallback 1 1
  | .obj g =>
    match g.id.bind gridToPageSize with
    | some p => p
    | none => shapeFallback (colsOr1 g.cols) (colsOr1 g.rows)

/-- Pixel dimensions of a decoded source image (`img.width`, `img.height`). -/
structure ImageDim where
  width : ℕ
  height : ℕ
deriving DecidableEq, Repr

/-- `img.width / img.height`, the aspect ratio as computed by the source. -/
def imgAspect (img : ImageDim) : ℚ := (img.width : ℚ) / (img.height : ℚ)

/-- Error taxonomy of `createGridComposite`: the three thrown input errors
(`imageComposite.js` lines 88-99) and the propagated image-load rejection
(`img.onerror`, lines 113-124 and 230-233). -/
inductive CompositeError where
  | noPhotos : CompositeError
  | invalidGrid : CompositeError
  | countMismatch : ℕ → ℕ → CompositeError
  | imageDecodeError : CompositeError
deriving DecidableEq, Repr

/-- The `Promise.all` join over the per-photo loads: each entry is a decode
result (`none` = the `onerror` path); one failure rejects the whole batch
and no image list is produced. -/
def sequenceImages : List (Option ImageDim) → Except CompositeError (List ImageDim)
  | [] => .ok []
  | none :: _ => .error .imageDecodeError
  | some img :: rest =>
    match sequenceImages rest with
    | .error e => .error e
    | .ok imgs => .ok (img :: imgs)

/-- The per-cell record stored in the `cellDimensions` map
(`imageComposite.js` lines 137-143): the image aspect and the (unused)
`minWidth`/`minHeight` fields, exactly as the source computes them. -/
structure CellDim where
  aspect : ℚ
  minWidth : ℚ
  minHeight : ℚ
deriving DecidableEq, Repr

/-- The initial entry put into the map for a fresh cell key. -/
def initCellDim (maxCellWidth : ℚ) (img : ImageDim) : CellDim :=
  let a := imgAspect img
  ⟨a, if a > 1 then maxCellWidth else maxCellWidth / a,
      if a > 1 then maxCellWidth / a else maxCellWidth⟩

/-- The cell key of photo index `i`: JS builds the string
`col-row` with `row = i % rows`, `col = floor(i / rows)`; the pair
`(col, row)` is an injective rendering of that string. -/
def cellKey (rows i : ℕ) : ℕ × ℕ := (i / rows, i % rows)

/-- `cellDimensions.has(cellKey)` on the association list modelling the
insertion-ordered JS `Map`. -/
def hasKey (acc : List ((ℕ × ℕ) × CellDim)) (k : ℕ × ℕ) : Bool :=
  acc.any (fun kv => kv.1 = k)

/-- One step of the `images.forEach` loop filling `cellDimensions`
(`imageComposite.js` lines 131-149): a fresh key appends an entry; a seen
key (impossible here, as the source comments) maxes the stored aspect. -/
def insertCellDim (maxCellWidth : ℚ) (rows : ℕ) (acc : List ((ℕ × ℕ) × CellDim))
    (i : ℕ) (img : ImageDim) : List ((ℕ × ℕ) × CellDim) :=
  let k := cellKey rows i
  if hasKey acc k then
    acc.map (fun kv =>
      if kv.1 = k then (kv.1, { kv.2 with aspect := max kv.2.aspect (imgAspect img) }) else kv)
  else
    acc ++ [(k, initCellDim maxCellWidth img)]

/-- The full `cellDimensions` map after the `images.forEach` loop, in
insertion order. -/
def buildCellDims (maxCellWidth : ℚ) (rows : ℕ) (images : List ImageDim) :
    List ((ℕ × ℕ) × CellDim) :=
  images.enum.foldl (fun acc p => insertCellDim maxCellWidth rows acc p.1 p.2) []

/-- The `cellDimensions.forEach` pass (`imageComposite.js` lines 155-167):
both running maxima start at `maxCellWidth`; a wide entry raises the height
maximum by `maxCellWidth / aspect`, any other raises the width maximum by
`maxCellWidth * aspect`.  Returns (maxCellWidthInches, maxCellHeightInches). -/
def cellInchesFold (maxCellWidth : ℚ) (dims : List ((ℕ × ℕ) × CellDim)) : ℚ × ℚ :=
  dims.foldl
    (fun acc kv =>
      if kv.2.aspect > 1 then (acc.1, max acc.2 (maxCellWidth / kv.2.aspect))
      else (max acc.1 (maxCellWidth * kv.2.aspect), acc.2))
    (maxCellWidth, maxCellWidth)

/-- The placement of one photo: its cell (row, column, pixel origin), the
destination rectangle passed to `ctx.drawImage`, the source rectangle
(always the full image in this mode), and the image itself. -/
structure Placement where
  row : ℕ
  col : ℕ
  cellX : ℤ
  cellY : ℤ
  drawX : ℚ
  drawY : ℚ
  drawW : ℚ
  drawH : ℚ
  srcX : ℚ
  srcY : ℚ
  srcW : ℚ
  srcH : ℚ
  img : ImageDim
deriving DecidableEq, Repr

/-- One iteration of the compositing loop (`imageComposite.js` lines
188-225): column-major cell position, then fit-to-width or fit-to-height
with centering, and a full-image source rectangle (no cropping). -/
def placeOne (rows : ℕ) (cellWidthPx cellHeightPx marginSize : ℤ)
    (i : ℕ) (img : ImageDim) : Placement :=
  let row := i % rows
  let col := i / rows
  let cellX := marginSize + (col : ℤ) * (cellWidthPx + marginSize)
  let cellY := marginSize + (row : ℤ) * (cellHeightPx + marginSize)
  let a := imgAspect img
  let cellAspect := (cellWidthPx : ℚ) / (cellHeightPx : ℚ)
  if a > cellAspect then
    { row := row, col := col, cellX := cellX, cellY := cellY,
      drawX := (cellX : ℚ),
      drawY := (cellY : ℚ) + ((cellHeightPx : ℚ) - (cellWidthPx : ℚ) / a) / 2,
      drawW := (cellWidthPx : ℚ), drawH := (cellWidthPx : ℚ) / a,
      srcX := 0, srcY := 0, srcW := (img.width : ℚ), srcH := (img.height : ℚ),
      img := img }
  else
    { row := row, col := col, cellX := cellX, cellY := cellY,
      drawX := (cellX : ℚ) + ((cellWidthPx : ℚ) - (cellHeightPx : ℚ) * a) / 2,
      drawY := (cellY : ℚ),
      drawW := (cellHeightPx : ℚ) * a, drawH := (cellHeightPx : ℚ),
      srcX := 0, srcY := 0, srcW := (img.width : ℚ), srcH := (img.height : ℚ),
      img := img }

/-- The observable result of a successful composition: canvas and cell
geometry, the white background fill, the JPEG encoding parameters of
`canvas.toDataURL('image/jpeg', 0.95)`, and the per-photo placements. -/
structure CompositeOutput where
  canvasWidth : ℤ
  canvasHeight : ℤ
  cellWidthPx : ℤ
  cellHeightPx : ℤ
  marginSize : ℤ
  maxCellWidthInches : ℚ
  maxCellHeightInches : ℚ
  background : String
  mimeType : String
  quality : ℚ
  placements : List Placement
deriving DecidableEq, Repr

/-- The layout and drawing work done once every image has loaded
(`imageComposite.js` lines 126-228). -/
def composeLoaded (g : GridObj) (dpi marginPercent maxCellWidth : ℚ)
    (images : List ImageDim) : CompositeOutput :=
  let cellDims := buildCellDims maxCellWidth g.rows images
  let m := cellInchesFold maxCellWidth cellDims
  let cellWidthPx := jround (m.1 * dpi)
  let cellHeightPx := jround (m.2 * dpi)
  let marginSize := jround (((min cellWidthPx cellHeightPx : ℤ) : ℚ) * (marginPercent / 100))
  let canvasWidth := marginSize + (cellWidthPx + marginSize) * (g.cols : ℤ)
  let canvasHeight := marginSize + (cellHeightPx + marginSize) * (g.rows : ℤ)
  { canvasWidth := canvasWidth, canvasHeight := canvasHeight,
    cellWidthPx := cellWidthPx, cellHeightPx := cellHeightPx,
    marginSize := marginSize,
    maxCellWidthInches := m.1, maxCellHeightInches := m.2,
    background := "#FFFFFF", mimeType := "image/jpeg", quality := 95/100,
    placements := images.enum.map (fun p =>
      placeOne g.rows cellWidthPx cellHeightPx marginSize p.1 p.2) }

/-- The `maxCellWidth` actually used: the caller's value when supplied,
otherwise the auto-derivation from the resolved page size
(`imageComposite.js` lines 101-111). -/
def effectiveMaxCellWidth (g : GridObj) (maxCellWidth : Option ℚ) : ℚ :=
  match maxCellWidth with
  | some m => m
  | none =>
    let pageConfig := getPageSizeFromGrid (.obj g)
    let marginInches : ℚ := 1/10
    let availableWidth := pageConfig.widthInches - marginInches * ((g.cols : ℚ) - 1)
    let availableHeight := pageConfig.heightInches - marginInches * ((g.rows : ℚ) - 1)
    min (availableWidth / (g.cols : ℚ)) (availableHeight / (g.rows : ℚ))

/-- `createGridComposite` (`imageComposite.js` lines 87-234).  The photo
list holds the decode results of the supplied data URLs; validation runs
before the decode results are even examined, exactly as in the source,
where the three throws precede the construction of any `Image`. -/
def createGridComposite (photos : List (Option ImageDim)) (grid : GridArg)
    (dpi marginPercent : ℚ) (maxCellWidth : Option ℚ) :
    Except CompositeError CompositeOutput :=
  if photos.isEmpty then .error .noPhotos
  else
    match grid with
    | .obj g =>
      if g.cols = 0 ∨ g.rows = 0 then .error .invalidGrid
      else if photos.length ≠ g.cols * g.rows then
        .error (.countMismatch (g.cols * g.rows) photos.length)
      else
        match sequenceImages photos with
        | .error e => .error e
        | .ok images =>
          .ok (composeLoaded g dpi marginPercent
            (effectiveMaxCellWidth g maxCellWidth) images)
    | _ => .error .invalidGrid

/-- Extract the output of a successful composition, with a fallback. -/
def okD (r : Except CompositeError CompositeOutput) (d : CompositeOutput) : CompositeOutput :=
  match r with
  | .ok o => o
  | .error _ => d

/-- A dummy output used as the `okD` fallback. -/
def dummyOutput : CompositeOutput :=
  ⟨0, 0, 0, 0, 0, 0, 0, "", "", 0, []⟩

/-- The candidate cell footprint of one image, following the spec's words
for the AspectPreserve sizing rule (spec §4.2): a wide image keeps width
`max_cell_width_in` with height `max_cell_width_in / aspect`; any other
image keeps height `max_cell_width_in` with width `max_cell_width_in *
aspect`.  Used to compare the spec's claimed maximum-over-candidates cell
size with what the source computes. -/
def candidateFootprint (maxCellWidth a : ℚ) : ℚ × ℚ :=
  if a > 1 then (maxCellWidth, maxCellWidth / a) else (maxCellWidth * a, maxCellWidth)

/-- A source-image crop rectangle. -/
structure SrcRect where
  x : ℚ
  y : ℚ
  w : ℚ
  h : ℚ
deriving DecidableEq, Repr

/-- A CropFill layout: fixed physical canvas, margins, uniform cell size. -/
structure CropFillPlan where
  canvasW : ℤ
  canvasH : ℤ
  marginPx : ℤ
  cellW : ℚ
  cellH : ℚ
deriving DecidableEq, Repr

/-- Modelled from the spec: the CropFill layout algorithm (spec §4.2) is
not present under `src/` (only the AspectPreserve revision is); per the
spec, `canvas_w_px = round(page.width_in * dpi)`, `canvas_h_px =
round(page.height_in * dpi)`, `margin_px = round(min(canvas_w_px,
canvas_h_px) * margin_percent/100)`, and the uniform cell size divides the
area left after `margin_px*(cols+1)` horizontal and `margin_px*(rows+1)`
vertical margin by the cell counts. -/
def cropFillPlan (page : PageSize) (cols rows : ℕ) (dpi marginPercent : ℚ) :
    CropFillPlan :=
  let canvasW := jround (page.widthInches * dpi)
  let canvasH := jround (page.heightInches * dpi)
  let marginPx := jround (((min canvasW canvasH : ℤ) : ℚ) * (marginPercent / 100))
  { canvasW := canvasW, canvasH := canvasH, marginPx := marginPx,
    cellW := ((canvasW : ℚ) - (marginPx : ℚ) * ((cols : ℚ) + 1)) / (cols : ℚ),
    cellH := ((canvasH : ℚ) - (marginPx : ℚ) * ((rows : ℚ) + 1)) / (rows : ℚ) }

/-- Modelled from the spec: the CropFill per-cell crop rule (spec §4.3) is
not present under `src/`; per the spec, an image wider than its cell is
cropped symmetrically left/right (`src_h = img.h`, `src_w = img.h *
cell_aspect`), otherwise symmetrically top/bottom. -/
def cropFillSrc (img : ImageDim) (cellW cellH : ℚ) : SrcRect :=
  let imgAspect := (img.width : ℚ) / (img.height : ℚ)
  let cellAspect := cellW / cellH
  if imgAspect > cellAspect then
    { x := ((img.width : ℚ) - (img.height : ℚ) * cellAspect) / 2, y := 0,
      w := (img.height : ℚ) * cellAspect, h := (img.height : ℚ) }
  else
    { x := 0, y := ((img.height : ℚ) - (img.width : ℚ) / cellAspect) / 2,
      w := (img.width : ℚ), h := (img.width : ℚ) / cellAspect }

/-- A successful `Promise.all` means every photo decoded. -/
lemma sequenceImages_ok_no_none :
    ∀ {photos : List (Option ImageDim)} {l : List ImageDim},
      sequenceImages photos = .ok l → Option.none ∉ photos := by
  intro photos
  induction photos with
  | nil => intro l _ h; simp at h
  | cons x rest ih =>
    intro l hseq hmem
    match x, hseq with
    | some img, hseq =>
      rcases List.mem_cons.mp hmem with h | h
      · exact Option.noConfusion h
      · revert hseq
        unfold sequenceImages
        cases hrec : sequenceImages rest with
        | error e => intro hseq; cases hseq
        | ok imgs => intro _; exact ih hrec h

/-- A successful `Promise.all` yields exactly the decoded images in order. -/
lemma sequenceImages_ok_iff :
    ∀ {photos : List (Option ImageDim)} {l : List ImageDim},
      sequenceImages photos = .ok l ↔ photos = l.map some := by
  intro photos
  induction photos with
  | nil =>
    intro l
    constructor
    · intro h
      cases l with
      | nil => rfl
      | cons a l => simp [sequenceImages] at h
    · intro h
      cases l with
      | nil => rfl
      | cons a l => simp at h
  | cons x rest ih =>
    intro l
    cases x with
    | none =>
      constructor
      · intro h; simp [sequenceImages] at h
      · intro h
        cases l with
        | nil => simp at h
        | cons b l => simp at h
    | some img =>
      constructor
      · intro h
        revert h
        unfold sequenceImages
        cases hrec : sequenceImages rest with
        | error e => intro h; cases h
        | ok imgs =>
          intro h
          cases h
          simp [ih.mp hrec]
      · intro h
        cases l with
        | nil => simp at h
        | cons b l =>
          simp only [List.map_cons, List.cons.injEq] at h
          obtain ⟨hb, hrest⟩ := h
          cases hb
          unfold sequenceImages
          rw [ih.mpr hrest]

/-- Inversion of a successful composition: the grid was a valid object,
the count matched, every image decoded, and the output is `composeLoaded`
at the effective cell width. -/
lemma createGridComposite_ok
    {photos : List (Option ImageDim)} {grid : GridArg} {dpi mp : ℚ}
    {mcwo : Option ℚ} {out : CompositeOutput}
    (h : createGridComposite photos grid dpi mp mcwo = .ok out) :
    ∃ g images, grid = .obj g ∧ photos = images.map some ∧
      photos ≠ [] ∧ g.cols ≠ 0 ∧ g.rows ≠ 0 ∧
      photos.length = g.cols * g.rows ∧
      out = composeLoaded g dpi mp (effectiveMaxCellWidth g mcwo) images := by
  unfold createGridComposite at h
  split at h
  · cases h
  · rename_i hne
    split at h
    · rename_i g
      split at h
      · cases h
      · rename_i hgrid
        split at h
        · cases h
        · rename_i hcount
          revert h
          cases hseq : sequenceImages photos with
          | error e => intro h; cases h
          | ok images =>
            intro h
            cases h
            push_neg at hgrid
            refine ⟨g, images, rfl, sequenceImages_ok_iff.mp hseq, ?_, hgrid.1, hgrid.2,
              not_not.mp hcount, rfl⟩
            simpa [List.isEmpty_iff] using hne
    · cases h

/-- The cell key map is injective in the photo index. -/
lemma cellKey_injective {rows i j : ℕ} (h : cellKey rows i = cellKey rows j) : i = j := by
  unfold cellKey at h
  obtain ⟨hdiv, hmod⟩ := Prod.mk.injEq .. ▸ h
  calc i = rows * (i / rows) + i % rows := (Nat.div_add_mod i rows).symm
    _ = rows * (j / rows) + j % rows := by rw [hdiv, hmod]
    _ = j := Nat.div_add_mod j rows

/-- Generalized shape of the `cellDimensions` fill loop: when every pending
index is fresh relative to the accumulator and the pending indices are
distinct, every iteration takes the append branch. -/
lemma buildCellDims_aux (mcw : ℚ) (rows : ℕ) :
    ∀ (ps : List (ℕ × ImageDim)) (acc : List ((ℕ × ℕ) × CellDim)),
      (∀ p ∈ ps, hasKey acc (cellKey rows p.1) = false) →
      (ps.map Prod.fst).Nodup →
      ps.foldl (fun acc p => insertCellDim mcw rows acc p.1 p.2) acc
        = acc ++ ps.map (fun p => (cellKey rows p.1, initCellDim mcw p.2)) := by
  intro ps
  induction ps with
  | nil => intro acc _ _; simp
  | cons p ps ih =>
    intro acc hfresh hnodup
    have hfresh0 : hasKey acc (cellKey rows p.1) = false :=
      hfresh p (List.mem_cons_self p ps)
    have hins : insertCellDim mcw rows acc p.1 p.2
        = acc ++ [(cellKey rows p.1, initCellDim mcw p.2)] := by
      simp [insertCellDim, hfresh0]
    simp only [List.foldl_cons, hins]
    rw [List.map_cons] at hnodup
    have hnodup' : (ps.map Prod.fst).Nodup := (List.nodup_cons.mp hnodup).2
    have hnotmem : p.1 ∉ ps.map Prod.fst := (List.nodup_cons.mp hnodup).1
    have hfresh' : ∀ q ∈ ps, hasKey (acc ++ [(cellKey rows p.1, initCellDim mcw p.2)])
        (cellKey rows q.1) = false := by
      intro q hq
      unfold hasKey
      rw [List.any_append]
      have h1 : hasKey acc (cellKey rows q.1) = false :=
        hfresh q (List.mem_cons_of_mem p hq)
      have h2 : cellKey rows p.1 ≠ cellKey rows q.1 := by
        intro hk
        exact hnotmem (by
          have : p.1 = q.1 := cellKey_injective hk
          rw [this]
          exact List.mem_map_of_mem Prod.fst hq)
      unfold hasKey at h1
      simp [h1, h2]
    rw [ih _ hfresh' hnodup']
    simp

/-- The `cellDimensions` map holds exactly one entry per photo, in input
order, because the cell key is injective in the photo index. -/
lemma buildCellDims_eq (mcw : ℚ) (rows : ℕ) (images : List ImageDim) :
    buildCellDims mcw rows images
      = images.enum.map (fun p => (cellKey rows p.1, initCellDim mcw p.2)) := by
  unfold buildCellDims
  rw [buildCellDims_aux mcw rows images.enum []]
  · simp
  · intro p _; rfl
  · rw [List.enum_map_fst]
    exact List.nodup_range _

/-- The aspects stored in the `cellDimensions` map are the input images'
aspect ratios, in order. -/
lemma buildCellDims_aspects (mcw : ℚ) (rows : ℕ) (images : List ImageDim) :
    (buildCellDims mcw rows images).map (fun kv => kv.2.aspect)
      = images.map imgAspect := by
  rw [buildCellDims_eq]
  rw [List.map_map]
  have : ((fun kv : (ℕ × ℕ) × CellDim => kv.2.aspect) ∘
      (fun p : ℕ × ImageDim => (cellKey rows p.1, initCellDim mcw p.2)))
      = (fun p : ℕ × ImageDim => imgAspect p.2) := by
    funext p
    simp [initCellDim]
  rw [this]
  have h2 : (fun p : ℕ × ImageDim => imgAspect p.2)
      = (imgAspect ∘ Prod.snd) := rfl
  rw [h2, ← List.map_map, List.enum_map_snd]

/-- With a nonnegative starting width, the `cellDimensions.forEach` maxima
never move: a wide entry contributes `mcw / aspect ≤ mcw` and any other
contributes `mcw * aspect ≤ mcw`, while both maxima start at `mcw`. -/
lemma cellInchesFold_of_nonneg (mcw : ℚ) (hm : 0 ≤ mcw) :
    ∀ dims : List ((ℕ × ℕ) × CellDim),
      (∀ kv ∈ dims, 0 ≤ kv.2.aspect) → cellInchesFold mcw dims = (mcw, mcw) := by
  intro dims
  induction dims with
  | nil => intro _; rfl
  | cons kv rest ih =>
    intro hd
    have hstep :
        (if kv.2.aspect > 1 then ((mcw, mcw).1, max (mcw, mcw).2 (mcw / kv.2.aspect))
         else (max (mcw, mcw).1 (mcw * kv.2.aspect), (mcw, mcw).2)) = (mcw, mcw) := by
      split
      · rename_i ha
        have : mcw / kv.2.aspect ≤ mcw := div_le_self hm (le_of_lt ha)
        simp [max_eq_left this]
      · rename_i ha
        have h1 : kv.2.aspect ≤ 1 := le_of_not_lt ha
        have : mcw * kv.2.aspect ≤ mcw := mul_le_of_le_one_right hm h1
        simp [max_eq_left this]
    unfold cellInchesFold at ih ⊢
    rw [List.foldl_cons, hstep]
    exact ih (fun q hq => hd q (List.mem_cons_of_mem kv hq))

/-- The source's single-pass maxima update coincides with folding a running
maximum of the spec's per-image candidate widths and heights, as long as
both accumulators are at least the seed `mcw` (true from the start, since
both are seeded with `mcw` itself). -/
lemma cellFold_eq_candidate_fold (mcw : ℚ) :
    ∀ (l : List ℚ) (w h : ℚ), mcw ≤ w → mcw ≤ h →
      l.foldl (fun acc a =>
          if a > 1 then (acc.1, max acc.2 (mcw / a)) else (max acc.1 (mcw * a), acc.2))
        (w, h)
      = (l.foldl (fun m a => max m (candidateFootprint mcw a).1) w,
         l.foldl (fun m a => max m (candidateFootprint mcw a).2) h) := by
  intro l
  induction l with
  | nil => intro w h _ _; rfl
  | cons a rest ih =>
    intro w h hw hh
    by_cases ha : a > 1
    · have hcand : candidateFootprint mcw a = (mcw, mcw / a) := by
        simp [candidateFootprint, ha]
      simp only [List.foldl_cons, if_pos ha, hcand, max_eq_left hw]
      exact ih w (max h (mcw / a)) hw (le_trans hh (le_max_left h (mcw / a)))
    · have hcand : candidateFootprint mcw a = (mcw * a, mcw) := by
        simp [candidateFootprint, ha]
      simp only [List.foldl_cons, if_neg ha, hcand, max_eq_left hh]
      exact ih (max w (mcw * a)) h (le_trans hw (le_max_left w (mcw * a))) hh

/-- The maxima pass only reads the stored aspects. -/
lemma cellInchesFold_map (mcw : ℚ) (dims : List ((ℕ × ℕ) × CellDim)) :
    cellInchesFold mcw dims
      = (dims.map (fun kv => kv.2.aspect)).foldl
          (fun acc a =>
            if a > 1 then (acc.1, max acc.2 (mcw / a)) else (max acc.1 (mcw * a), acc.2))
          (mcw, mcw) := by
  unfold cellInchesFold
  rw [List.foldl_map]

/-- The uniform cell size of a composition, in inches, equals the running
maximum, seeded with `maxCellWidth` itself, of the spec-style candidate
widths and heights of the input images. -/
lemma cellInches_eq_candidates (mcw : ℚ) (rows : ℕ) (images : List ImageDim) :
    cellInchesFold mcw (buildCellDims mcw rows images)
      = ((images.map imgAspect).foldl (fun m a => max m (candidateFootprint mcw a).1) mcw,
         (images.map imgAspect).foldl (fun m a => max m (candidateFootprint mcw a).2) mcw) := by
  rw [cellInchesFold_map, buildCellDims_aspects]
  exact cellFold_eq_candidate_fold mcw (images.map imgAspect) mcw mcw le_rfl le_rfl

/-- Every placed image keeps the same `row` regardless of the fit branch. -/
lemma placeOne_row (rows : ℕ) (cW cH m : ℤ) (i : ℕ) (img : ImageDim) :
    (placeOne rows cW cH m i img).row = i % rows := by
  simp only [placeOne]
  split <;> rfl

/-- Every placed image keeps the same `col` regardless of the fit branch. -/
lemma placeOne_col (rows : ℕ) (cW cH m : ℤ) (i : ℕ) (img : ImageDim) :
    (placeOne rows cW cH m i img).col = i / rows := by
  simp only [placeOne]
  split <;> rfl

/-- The cell origin of a placement, shared by both fit branches. -/
lemma placeOne_cellX (rows : ℕ) (cW cH m : ℤ) (i : ℕ) (img : ImageDim) :
    (placeOne rows cW cH m i img).cellX = m + ((i / rows : ℕ) : ℤ) * (cW + m) := by
  simp only [placeOne]
  split <;> rfl

/-- The cell origin of a placement, shared by both fit branches. -/
lemma placeOne_cellY (rows : ℕ) (cW cH m : ℤ) (i : ℕ) (img : ImageDim) :
    (placeOne rows cW cH m i img).cellY = m + ((i % rows : ℕ) : ℤ) * (cH + m) := by
  simp only [placeOne]
  split <;> rfl

/-- A placement records the image that produced it. -/
lemma placeOne_img (rows : ℕ) (cW cH m : ℤ) (i : ℕ) (img : ImageDim) :
    (placeOne rows cW cH m i img).img = img := by
  simp only [placeOne]
  split <;> rfl

/-- C5: for every request whose photo count differs from `cols * rows` (with
a nonempty photo list and a well-formed grid), `createGridComposite` fails
with the count-mismatch input error.  The photo list is arbitrary — in
particular the result is the same even if every entry failed to decode —
so the rejection depends on no image data and happens before any layout or
drawing work, whose results all live in the absent `CompositeOutput`. -/
theorem photo_count_validated_early
    (photos : List (Option ImageDim)) (g : GridObj) (dpi mp : ℚ) (mcwo : Option ℚ)
    (hne : photos ≠ []) (hc : g.cols ≠ 0) (hr : g.rows ≠ 0)
    (hlen : photos.length ≠ g.cols * g.rows) :
    createGridComposite photos (.obj g) dpi mp mcwo
      = .error (.countMismatch (g.cols * g.rows) photos.length) := by
  have h1 : photos.isEmpty = false := by
    simpa [List.isEmpty_iff] using hne
  simp [createGridComposite, h1, hc, hr, hlen]

/-- C5 witness: five undecoded photos against the 3×2 `5x7-6cut` grid are
rejected with the count-mismatch error (6 expected, 5 got). -/
theorem photo_count_validated_early_witness :
    (List.replicate 5 (Option.none (α := ImageDim)) ≠ [] ∧ (3 : ℕ) ≠ 0 ∧ (2 : ℕ) ≠ 0 ∧
      (List.replicate 5 (Option.none (α := ImageDim))).length ≠ 3 * 2) ∧
    createGridComposite (List.replicate 5 none) (.obj ⟨3, 2, some "5x7-6cut"⟩) 300 2 none
      = .error (.countMismatch (3 * 2) (List.replicate 5 (Option.none (α := ImageDim))).length) :=
  ⟨⟨by with_unfolding_all decide, by with_unfolding_all decide, by with_unfolding_all decide,
      by with_unfolding_all decide⟩,
   photo_count_validated_early (List.replicate 5 none) ⟨3, 2, some "5x7-6cut"⟩ 300 2 none
     (by with_unfolding_all decide) (by with_unfolding_all decide)
     (by with_unfolding_all decide) (by with_unfolding_all decide)⟩

/-- C7: if any source image fails to decode, the whole composition call
fails: no `CompositeOutput` is ever produced, so a partial composite can
never reach the caller. -/
theorem decode_failure_no_partial
    (photos : List (Option ImageDim)) (grid : GridArg) (dpi mp : ℚ) (mcwo : Option ℚ)
    (h : Option.none ∈ photos) :
    ∀ out, createGridComposite photos grid dpi mp mcwo ≠ .ok out := by
  intro out hok
  obtain ⟨g, images, _, hphotos, _, _, _, _, _⟩ := createGridComposite_ok hok
  rw [hphotos] at h
  simp at h

/-- C7 witness: a 2×1 request whose second photo fails to decode never
returns a composite. -/
theorem decode_failure_no_partial_witness :
    Option.none ∈ [some (⟨10, 20⟩ : ImageDim), none] ∧
    ∀ out, createGridComposite [some ⟨10, 20⟩, none] (.obj ⟨2, 1, some "2x4-vertical-2"⟩)
      300 2 none ≠ .ok out :=
  ⟨by with_unfolding_all decide,
   decode_failure_no_partial [some ⟨10, 20⟩, none] (.obj ⟨2, 1, some "2x4-vertical-2"⟩)
     300 2 none (by with_unfolding_all decide)⟩

/-- C8: omitting `max_cell_width_in` is exactly the same as passing
`min((page.width_in − 0.1*(cols−1))/cols, (page.height_in −
0.1*(rows−1))/rows)` computed from the page size resolved for the grid —
the auto-derivation of `imageComposite.js` lines 104-111. -/
theorem auto_max_cell_width_derived
    (photos : List (Option ImageDim)) (g : GridObj) (dpi mp : ℚ) :
    createGridComposite photos (.obj g) dpi mp none
      = createGridComposite photos (.obj g) dpi mp
          (some (min
            (((getPageSizeFromGrid (.obj g)).widthInches - (1/10) * ((g.cols : ℚ) - 1))
              / (g.cols : ℚ))
            (((getPageSizeFromGrid (.obj g)).heightInches - (1/10) * ((g.rows : ℚ) - 1))
              / (g.rows : ℚ)))) := rfl

/-- C4 counterexample: a 1×1 grid whose id misses the catalog resolves to
the 2×4 standard size (its 2×3 inch shape-derived size is nearest to 2×4),
not to the 4×6 size the claim predicts. -/
theorem shape_fallback_one_by_one_refuted :
    getPageSizeFromGrid (.obj ⟨1, 1, some "custom-grid"⟩) = ⟨2, 4, "2x4"⟩ ∧
    getPageSizeFromGrid (.obj ⟨1, 1, some "custom-grid"⟩) ≠ ⟨4, 6, "4x6"⟩ := by
  constructor
  · with_unfolding_all decide
  · with_unfolding_all decide

/-- C4 amended: for every grid id that misses the catalog, the shape
fallback resolves `(1,1)` to 2×4 (not 4×6), `(2,1)` to 2×4, `(2,2)` to
4×6 and `(3,2)` to 5×7. -/
theorem shape_fallback_defaults (ido : Option String)
    (h : ido.bind gridToPageSize = none) :
    getPageSizeFromGrid (.obj ⟨1, 1, ido⟩) = ⟨2, 4, "2x4"⟩ ∧
    getPageSizeFromGrid (.obj ⟨2, 1, ido⟩) = ⟨2, 4, "2x4"⟩ ∧
    getPageSizeFromGrid (.obj ⟨2, 2, ido⟩) = ⟨4, 6, "4x6"⟩ ∧
    getPageSizeFromGrid (.obj ⟨3, 2, ido⟩) = ⟨5, 7, "5x7"⟩ := by
  refine ⟨?_, ?_, ?_, ?_⟩ <;>
    · simp only [getPageSizeFromGrid]
      rw [h]
      with_unfolding_all decide

/-- C4 amended witness: the unmatched id `"custom-cut"` resolves as the
amended claim states on all four shapes. -/
theorem shape_fallback_defaults_witness :
    (Option.bind (some "custom-cut") gridToPageSize = none) ∧
    (getPageSizeFromGrid (.obj ⟨1, 1, some "custom-cut"⟩) = ⟨2, 4, "2x4"⟩ ∧
     getPageSizeFromGrid (.obj ⟨2, 1, some "custom-cut"⟩) = ⟨2, 4, "2x4"⟩ ∧
     getPageSizeFromGrid (.obj ⟨2, 2, some "custom-cut"⟩) = ⟨4, 6, "4x6"⟩ ∧
     getPageSizeFromGrid (.obj ⟨3, 2, some "custom-cut"⟩) = ⟨5, 7, "5x7"⟩) :=
  ⟨by with_unfolding_all decide,
   shape_fallback_defaults (some "custom-cut") (by with_unfolding_all decide)⟩

/-- C10 counterexample: the empty string is falsy in JavaScript, so
`getPageSizeFromGrid('')` returns the 4×6 default; treating it as a grid
id for the catalog lookup (an object with that id and no `cols`/`rows`)
would instead fall through to the 2×4 shape fallback. -/
theorem empty_string_grid_refuted :
    getPageSizeFromGrid (.str "") = ⟨4, 6, "4x6"⟩ ∧
    getPageSizeFromGrid (.obj ⟨0, 0, some ""⟩) = ⟨2, 4, "2x4"⟩ ∧
    getPageSizeFromGrid (.str "") ≠ getPageSizeFromGrid (.obj ⟨0, 0, some ""⟩) := by
  refine ⟨?_, ?_, ?_⟩ <;> with_unfolding_all decide

/-- C10 amended: page-size resolution is total on degenerate inputs —
`null`/`undefined` yields the 4×6 default, and every nonempty string is
treated exactly as the grid id of an object carrying no `cols`/`rows`
(the empty string, being falsy, also yields the 4×6 default). -/
theorem degenerate_grid_resolution (s : String) (hs : s ≠ "") :
    getPageSizeFromGrid .nil = ⟨4, 6, "4x6"⟩ ∧
    getPageSizeFromGrid (.str s) = getPageSizeFromGrid (.obj ⟨0, 0, some s⟩) := by
  constructor
  · rfl
  · simp only [getPageSizeFromGrid]
    rw [if_neg hs]
    cases hcat : gridToPageSize s with
    | none => simp [hcat, colsOr1]
    | some p => simp [hcat]

/-- C10 amended witness: the nonempty string `"5x7-6cut"` resolves like the
object `{ id: "5x7-6cut" }`, hitting the catalog. -/
theorem degenerate_grid_resolution_witness :
    ("5x7-6cut" ≠ "") ∧
    (getPageSizeFromGrid .nil = ⟨4, 6, "4x6"⟩ ∧
     getPageSizeFromGrid (.str "5x7-6cut") = getPageSizeFromGrid (.obj ⟨0, 0, some "5x7-6cut"⟩)) :=
  ⟨by with_unfolding_all decide,
   degenerate_grid_resolution "5x7-6cut" (by with_unfolding_all decide)⟩

set_option maxRecDepth 4000 in
/-- C3: the CropFill scenario (spec-modelled, the mode is absent from
`src/`): grid `2x4-vertical-2` (2×1) at 300 dpi with 2% margins yields a
600×1200 canvas, 12 px margins and 282×1176 cells; a square source image
keeps its full height and is cropped symmetrically on the sides, the
retained region being taller than wide. -/
theorem cropfill_2x4_vertical_scenario :
    (cropFillPlan (getPageSizeFromGrid (.obj ⟨2, 1, some "2x4-vertical-2"⟩)) 2 1 300 2).canvasW
      = 600 ∧
    (cropFillPlan (getPageSizeFromGrid (.obj ⟨2, 1, some "2x4-vertical-2"⟩)) 2 1 300 2).canvasH
      = 1200 ∧
    (cropFillPlan (getPageSizeFromGrid (.obj ⟨2, 1, some "2x4-vertical-2"⟩)) 2 1 300 2).marginPx
      = 12 ∧
    (cropFillPlan (getPageSizeFromGrid (.obj ⟨2, 1, some "2x4-vertical-2"⟩)) 2 1 300 2).cellW
      = 282 ∧
    (cropFillPlan (getPageSizeFromGrid (.obj ⟨2, 1, some "2x4-vertical-2"⟩)) 2 1 300 2).cellH
      = 1176 ∧
    (cropFillSrc ⟨1000, 1000⟩ 282 1176).h = 1000 ∧
    (cropFillSrc ⟨1000, 1000⟩ 282 1176).w < 1000 ∧
    (cropFillSrc ⟨1000, 1000⟩ 282 1176).w < (cropFillSrc ⟨1000, 1000⟩ 282 1176).h := by
  refine ⟨?_, ?_, ?_, ?_, ?_, ?_, ?_, ?_⟩ <;> with_unfolding_all decide

/-- The placements of a composition are the per-index placements of the
decoded images, with the computed cell pixel sizes and margin. -/
lemma composeLoaded_placements (g : GridObj) (dpi mp mcw : ℚ) (images : List ImageDim) :
    (composeLoaded g dpi mp mcw images).placements
      = images.enum.map (fun p =>
          placeOne g.rows
            (composeLoaded g dpi mp mcw images).cellWidthPx
            (composeLoaded g dpi mp mcw images).cellHeightPx
            (composeLoaded g dpi mp mcw images).marginSize p.1 p.2) := rfl

/-- The cell width in pixels is the rounded first maxima component. -/
lemma composeLoaded_cellWidthPx (g : GridObj) (dpi mp mcw : ℚ) (images : List ImageDim) :
    (composeLoaded g dpi mp mcw images).cellWidthPx
      = jround ((cellInchesFold mcw (buildCellDims mcw g.rows images)).1 * dpi) := rfl

/-- The cell height in pixels is the rounded second maxima component. -/
lemma composeLoaded_cellHeightPx (g : GridObj) (dpi mp mcw : ℚ) (images : List ImageDim) :
    (composeLoaded g dpi mp mcw images).cellHeightPx
      = jround ((cellInchesFold mcw (buildCellDims mcw g.rows images)).2 * dpi) := rfl

/-- The cell width in inches is the first maxima component. -/
lemma composeLoaded_maxCellWidthInches (g : GridObj) (dpi mp mcw : ℚ) (images : List ImageDim) :
    (composeLoaded g dpi mp mcw images).maxCellWidthInches
      = (cellInchesFold mcw (buildCellDims mcw g.rows images)).1 := rfl

/-- The cell height in inches is the second maxima component. -/
lemma composeLoaded_maxCellHeightInches (g : GridObj) (dpi mp mcw : ℚ) (images : List ImageDim) :
    (composeLoaded g dpi mp mcw images).maxCellHeightInches
      = (cellInchesFold mcw (buildCellDims mcw g.rows images)).2 := rfl

/-- The canvas background fill is opaque white. -/
lemma composeLoaded_background (g : GridObj) (dpi mp mcw : ℚ) (images : List ImageDim) :
    (composeLoaded g dpi mp mcw images).background = "#FFFFFF" := rfl

/-- C1: every successful composition places photo `i` column-major: its
cell is `row = i mod rows`, `col = i div rows`, with origin
`x = margin_px + col*(cell_w_px + margin_px)` and
`y = margin_px + row*(cell_h_px + margin_px)`. -/
theorem grid_placement_column_major
    (photos : List (Option ImageDim)) (g : GridObj) (dpi mp : ℚ) (mcwo : Option ℚ)
    (out : CompositeOutput)
    (h : createGridComposite photos (.obj g) dpi mp mcwo = .ok out) :
    ∀ i (hi : i < out.placements.length),
      (out.placements.get ⟨i, hi⟩).row = i % g.rows ∧
      (out.placements.get ⟨i, hi⟩).col = i / g.rows ∧
      (out.placements.get ⟨i, hi⟩).cellX
        = out.marginSize + ((i / g.rows : ℕ) : ℤ) * (out.cellWidthPx + out.marginSize) ∧
      (out.placements.get ⟨i, hi⟩).cellY
        = out.marginSize + ((i % g.rows : ℕ) : ℤ) * (out.cellHeightPx + out.marginSize) := by
  obtain ⟨g', images, hg, _, _, _, _, _, hout⟩ := createGridComposite_ok h
  injection hg with hg'
  subst hg'
  subst hout
  intro i hi
  simp only [composeLoaded_placements, List.get_eq_getElem, List.getElem_map,
    List.getElem_enum]
  exact ⟨placeOne_row _ _ _ _ _ _, placeOne_col _ _ _ _ _ _,
    placeOne_cellX _ _ _ _ _ _, placeOne_cellY _ _ _ _ _ _⟩

/-- C1 witness: a 2×2 grid with four distinct images A(100×100),
B(200×100), C(100×200), D(150×100) places index 0 at (row 0, col 0),
1 at (row 1, col 0), 2 at (row 0, col 1), 3 at (row 1, col 1), each cell
origin following the margin formula. -/
theorem grid_placement_column_major_witness :
    createGridComposite [some ⟨100, 100⟩, some ⟨200, 100⟩, some ⟨100, 200⟩, some ⟨150, 100⟩]
        (.obj ⟨2, 2, some "4x6-4cut"⟩) 300 2 (some 3)
      = .ok (okD (createGridComposite
          [some ⟨100, 100⟩, some ⟨200, 100⟩, some ⟨100, 200⟩, some ⟨150, 100⟩]
          (.obj ⟨2, 2, some "4x6-4cut"⟩) 300 2 (some 3)) dummyOutput) ∧
    (∀ i (hi : i < (okD (createGridComposite
          [some ⟨100, 100⟩, some ⟨200, 100⟩, some ⟨100, 200⟩, some ⟨150, 100⟩]
          (.obj ⟨2, 2, some "4x6-4cut"⟩) 300 2 (some 3)) dummyOutput).placements.length),
      ((okD (createGridComposite
          [some ⟨100, 100⟩, some ⟨200, 100⟩, some ⟨100, 200⟩, some ⟨150, 100⟩]
          (.obj ⟨2, 2, some "4x6-4cut"⟩) 300 2 (some 3)) dummyOutput).placements.get
            ⟨i, hi⟩).row = i % 2 ∧
      ((okD (createGridComposite
          [some ⟨100, 100⟩, some ⟨200, 100⟩, some ⟨100, 200⟩, some ⟨150, 100⟩]
          (.obj ⟨2, 2, some "4x6-4cut"⟩) 300 2 (some 3)) dummyOutput).placements.get
            ⟨i, hi⟩).col = i / 2 ∧
      ((okD (createGridComposite
          [some ⟨100, 100⟩, some ⟨200, 100⟩, some ⟨100, 200⟩, some ⟨150, 100⟩]
          (.obj ⟨2, 2, some "4x6-4cut"⟩) 300 2 (some 3)) dummyOutput).placements.get
            ⟨i, hi⟩).cellX
        = (okD (createGridComposite
          [some ⟨100, 100⟩, some ⟨200, 100⟩, some ⟨100, 200⟩, some ⟨150, 100⟩]
          (.obj ⟨2, 2, some "4x6-4cut"⟩) 300 2 (some 3)) dummyOutput).marginSize
          + ((i / 2 : ℕ) : ℤ) * ((okD (createGridComposite
          [some ⟨100, 100⟩, some ⟨200, 100⟩, some ⟨100, 200⟩, some ⟨150, 100⟩]
          (.obj ⟨2, 2, some "4x6-4cut"⟩) 300 2 (some 3)) dummyOutput).cellWidthPx
            + (okD (createGridComposite
          [some ⟨100, 100⟩, some ⟨200, 100⟩, some ⟨100, 200⟩, some ⟨150, 100⟩]
          (.obj ⟨2, 2, some "4x6-4cut"⟩) 300 2 (some 3)) dummyOutput).marginSize) ∧
      ((okD (createGridComposite
          [some ⟨100, 100⟩, some ⟨200, 100⟩, some ⟨100, 200⟩, some ⟨150, 100⟩]
          (.obj ⟨2, 2, some "4x6-4cut"⟩) 300 2 (some 3)) dummyOutput).placements.get
            ⟨i, hi⟩).cellY
        = (okD (createGridComposite
          [some ⟨100, 100⟩, some ⟨200, 100⟩, some ⟨100, 200⟩, some ⟨150, 100⟩]
          (.obj ⟨2, 2, some "4x6-4cut"⟩) 300 2 (some 3)) dummyOutput).marginSize
          + ((i % 2 : ℕ) : ℤ) * ((okD (createGridComposite
          [some ⟨100, 100⟩, some ⟨200, 100⟩, some ⟨100, 200⟩, some ⟨150, 100⟩]
          (.obj ⟨2, 2, some "4x6-4cut"⟩) 300 2 (some 3)) dummyOutput).cellHeightPx
            + (okD (createGridComposite
          [some ⟨100, 100⟩, some ⟨200, 100⟩, some ⟨100, 200⟩, some ⟨150, 100⟩]
          (.obj ⟨2, 2, some "4x6-4cut"⟩) 300 2 (some 3)) dummyOutput).marginSize)) ∧
    ((okD (createGridComposite
        [some ⟨100, 100⟩, some ⟨200, 100⟩, some ⟨100, 200⟩, some ⟨150, 100⟩]
        (.obj ⟨2, 2, some "4x6-4cut"⟩) 300 2 (some 3)) dummyOutput).placements.map
          (fun p => (p.row, p.col, p.img))
      = [(0, 0, ⟨100, 100⟩), (1, 0, ⟨200, 100⟩), (0, 1, ⟨100, 200⟩), (1, 1, ⟨150, 100⟩)]) :=
  ⟨by with_unfolding_all rfl,
   grid_placement_column_major
     [some ⟨100, 100⟩, some ⟨200, 100⟩, some ⟨100, 200⟩, some ⟨150, 100⟩]
     ⟨2, 2, some "4x6-4cut"⟩ 300 2 (some 3) _
     (by with_unfolding_all rfl),
   by with_unfolding_all decide⟩

/-- Every aspect stored in the `cellDimensions` map is nonnegative (it is
a quotient of image pixel counts). -/
lemma buildCellDims_aspect_nonneg (mcw : ℚ) (rows : ℕ) (images : List ImageDim) :
    ∀ kv ∈ buildCellDims mcw rows images, 0 ≤ kv.2.aspect := by
  intro kv hkv
  rw [buildCellDims_eq] at hkv
  obtain ⟨p, _, hp⟩ := List.mem_map.mp hkv
  rw [← hp]
  simp only [initCellDim]
  exact div_nonneg (Nat.cast_nonneg _) (Nat.cast_nonneg _)

/-- C9: whenever the effective maximum cell width is nonnegative (always
the case in practice: a negative physical cell width cannot yield a
drawable canvas), the cell pixel size of a successful composition is
square and independent of the images' aspect ratios:
`cellWidthPx = cellHeightPx = round(maxCellWidth * dpi)` — each per-image
update is `maxCellWidth/aspect` (aspect > 1) or `maxCellWidth*aspect`
(aspect ≤ 1) and so never exceeds the seed `maxCellWidth` of both maxima. -/
theorem cell_pixels_square
    (photos : List (Option ImageDim)) (g : GridObj) (dpi mp : ℚ) (mcwo : Option ℚ)
    (out : CompositeOutput)
    (h : createGridComposite photos (.obj g) dpi mp mcwo = .ok out)
    (hm : 0 ≤ effectiveMaxCellWidth g mcwo) :
    out.cellWidthPx = out.cellHeightPx ∧
    out.cellWidthPx = jround (effectiveMaxCellWidth g mcwo * dpi) := by
  obtain ⟨g', images, hg, _, _, _, _, _, hout⟩ := createGridComposite_ok h
  injection hg with hg'
  subst hg'
  subst hout
  have hfold := cellInchesFold_of_nonneg (effectiveMaxCellWidth g mcwo) hm
    (buildCellDims (effectiveMaxCellWidth g mcwo) g.rows images)
    (buildCellDims_aspect_nonneg _ _ _)
  rw [composeLoaded_cellWidthPx, composeLoaded_cellHeightPx, hfold]
  exact ⟨rfl, rfl⟩

/-- C9 witness: one 4:3 landscape photo on the `5x5-single` grid with the
auto-derived cell width (5 inches, nonnegative) yields square 1500×1500
pixel cells. -/
theorem cell_pixels_square_witness :
    createGridComposite [some ⟨40, 30⟩] (.obj ⟨1, 1, some "5x5-single"⟩) 300 2 none
      = .ok (okD (createGridComposite [some ⟨40, 30⟩] (.obj ⟨1, 1, some "5x5-single"⟩)
          300 2 none) dummyOutput) ∧
    0 ≤ effectiveMaxCellWidth ⟨1, 1, some "5x5-single"⟩ none ∧
    ((okD (createGridComposite [some ⟨40, 30⟩] (.obj ⟨1, 1, some "5x5-single"⟩) 300 2 none)
        dummyOutput).cellWidthPx
      = (okD (createGridComposite [some ⟨40, 30⟩] (.obj ⟨1, 1, some "5x5-single"⟩) 300 2 none)
        dummyOutput).cellHeightPx ∧
     (okD (createGridComposite [some ⟨40, 30⟩] (.obj ⟨1, 1, some "5x5-single"⟩) 300 2 none)
        dummyOutput).cellWidthPx
      = jround (effectiveMaxCellWidth ⟨1, 1, some "5x5-single"⟩ none * 300)) ∧
    (okD (createGridComposite [some ⟨40, 30⟩] (.obj ⟨1, 1, some "5x5-single"⟩) 300 2 none)
        dummyOutput).cellWidthPx = 1500 :=
  ⟨by with_unfolding_all rfl,
   by with_unfolding_all decide,
   cell_pixels_square [some ⟨40, 30⟩] ⟨1, 1, some "5x5-single"⟩ 300 2 none _
     (by with_unfolding_all rfl) (by with_unfolding_all decide),
   by with_unfolding_all decide⟩

/-- C2 counterexample: a single wide image (aspect 2) with
`max_cell_width_in = 3` has spec candidate footprint 3 × 3/2 inches, so the
claimed maximum-over-candidates cell height is 3/2 in = 450 px at 300 dpi;
the source instead keeps the seed value 3 in and produces 900 px. -/
theorem cell_sizing_spec_max_refuted :
    createGridComposite [some ⟨200, 100⟩] (.obj ⟨1, 1, some "wide-single"⟩) 300 2 (some 3)
      = .ok (okD (createGridComposite [some ⟨200, 100⟩] (.obj ⟨1, 1, some "wide-single"⟩)
          300 2 (some 3)) dummyOutput) ∧
    (okD (createGridComposite [some ⟨200, 100⟩] (.obj ⟨1, 1, some "wide-single"⟩)
        300 2 (some 3)) dummyOutput).maxCellHeightInches = 3 ∧
    (okD (createGridComposite [some ⟨200, 100⟩] (.obj ⟨1, 1, some "wide-single"⟩)
        300 2 (some 3)) dummyOutput).cellHeightPx = 900 ∧
    (candidateFootprint 3 (imgAspect ⟨200, 100⟩)).2 = 3/2 ∧
    jround ((candidateFootprint 3 (imgAspect ⟨200, 100⟩)).2 * 300) = 450 ∧
    (okD (createGridComposite [some ⟨200, 100⟩] (.obj ⟨1, 1, some "wide-single"⟩)
        300 2 (some 3)) dummyOutput).maxCellHeightInches
      ≠ (candidateFootprint 3 (imgAspect ⟨200, 100⟩)).2 := by
  refine ⟨by with_unfolding_all rfl, ?_, ?_, ?_, ?_, ?_⟩ <;> with_unfolding_all decide

/-- Folding a maximum of a function of each placement's image aspect over
the placements equals folding it over the images they came from. -/
lemma foldl_max_over_placements (E : ℚ) (F : ℚ → ℚ) (pl : List Placement)
    (images : List ImageDim) (himgs : pl.map (fun p => p.img) = images) :
    (pl.map (fun p => F (imgAspect p.img))).foldl max E
      = (images.map imgAspect).foldl (fun m a => max m (F a)) E := by
  subst himgs
  induction pl generalizing E with
  | nil => rfl
  | cons p ps ih =>
    simp only [List.map_cons, List.foldl_cons]
    exact ih (max E (F (imgAspect p.img)))

/-- C2 amended: the uniform cell size of a successful composition is the
maximum of the spec's per-image candidate widths and heights *seeded with
`max_cell_width_in` itself* — the source initializes both running maxima
with `maxCellWidth`, so (unlike the claim) when every image is wide the
cell height stays `max_cell_width_in` instead of the largest candidate
height `max_cell_width_in/aspect`. -/
theorem cell_sizing_max_seeded
    (photos : List (Option ImageDim)) (g : GridObj) (dpi mp : ℚ) (mcwo : Option ℚ)
    (out : CompositeOutput)
    (h : createGridComposite photos (.obj g) dpi mp mcwo = .ok out) :
    out.maxCellWidthInches
      = (out.placements.map (fun p =>
          (candidateFootprint (effectiveMaxCellWidth g mcwo) (imgAspect p.img)).1)).foldl
          max (effectiveMaxCellWidth g mcwo) ∧
    out.maxCellHeightInches
      = (out.placements.map (fun p =>
          (candidateFootprint (effectiveMaxCellWidth g mcwo) (imgAspect p.img)).2)).foldl
          max (effectiveMaxCellWidth g mcwo) := by
  obtain ⟨g', images, hg, _, _, _, _, _, hout⟩ := createGridComposite_ok h
  injection hg with hg'
  subst hg'
  subst hout
  have himgs : (composeLoaded g dpi mp (effectiveMaxCellWidth g mcwo) images).placements.map
      (fun p => p.img) = images := by
    rw [composeLoaded_placements, List.map_map]
    have : ((fun p : Placement => p.img) ∘ (fun p : ℕ × ImageDim =>
        placeOne g.rows (composeLoaded g dpi mp (effectiveMaxCellWidth g mcwo) images).cellWidthPx
          (composeLoaded g dpi mp (effectiveMaxCellWidth g mcwo) images).cellHeightPx
          (composeLoaded g dpi mp (effectiveMaxCellWidth g mcwo) images).marginSize p.1 p.2))
        = Prod.snd := by
      funext p
      exact placeOne_img _ _ _ _ _ _
    rw [this, List.enum_map_snd]
  constructor
  · rw [composeLoaded_maxCellWidthInches, cellInches_eq_candidates,
      foldl_max_over_placements (effectiveMaxCellWidth g mcwo)
        (fun a => (candidateFootprint (effectiveMaxCellWidth g mcwo) a).1) _ images himgs]
  · rw [composeLoaded_maxCellHeightInches, cellInches_eq_candidates,
      foldl_max_over_placements (effectiveMaxCellWidth g mcwo)
        (fun a => (candidateFootprint (effectiveMaxCellWidth g mcwo) a).2) _ images himgs]

/-- C2 amended witness: a wide (2:1) and a tall (1:2) image on the 2×1
grid with `max_cell_width_in = 3`: both seeded maxima stay 3, matching the
seeded candidate fold. -/
theorem cell_sizing_max_seeded_witness :
    createGridComposite [some ⟨200, 100⟩, some ⟨100, 200⟩]
        (.obj ⟨2, 1, some "2x4-vertical-2"⟩) 300 2 (some 3)
      = .ok (okD (createGridComposite [some ⟨200, 100⟩, some ⟨100, 200⟩]
          (.obj ⟨2, 1, some "2x4-vertical-2"⟩) 300 2 (some 3)) dummyOutput) ∧
    ((okD (createGridComposite [some ⟨200, 100⟩, some ⟨100, 200⟩]
        (.obj ⟨2, 1, some "2x4-vertical-2"⟩) 300 2 (some 3)) dummyOutput).maxCellWidthInches
      = ((okD (createGridComposite [some ⟨200, 100⟩, some ⟨100, 200⟩]
          (.obj ⟨2, 1, some "2x4-vertical-2"⟩) 300 2 (some 3)) dummyOutput).placements.map
            (fun p => (candidateFootprint
              (effectiveMaxCellWidth ⟨2, 1, some "2x4-vertical-2"⟩ (some 3))
              (imgAspect p.img)).1)).foldl
          max (effectiveMaxCellWidth ⟨2, 1, some "2x4-vertical-2"⟩ (some 3)) ∧
     (okD (createGridComposite [some ⟨200, 100⟩, some ⟨100, 200⟩]
        (.obj ⟨2, 1, some "2x4-vertical-2"⟩) 300 2 (some 3)) dummyOutput).maxCellHeightInches
      = ((okD (createGridComposite [some ⟨200, 100⟩, some ⟨100, 200⟩]
          (.obj ⟨2, 1, some "2x4-vertical-2"⟩) 300 2 (some 3)) dummyOutput).placements.map
            (fun p => (candidateFootprint
              (effectiveMaxCellWidth ⟨2, 1, some "2x4-vertical-2"⟩ (some 3))
              (imgAspect p.img)).2)).foldl
          max (effectiveMaxCellWidth ⟨2, 1, some "2x4-vertical-2"⟩ (some 3))) ∧
    (okD (createGridComposite [some ⟨200, 100⟩, some ⟨100, 200⟩]
        (.obj ⟨2, 1, some "2x4-vertical-2"⟩) 300 2 (some 3)) dummyOutput).maxCellWidthInches
      = 3 ∧
    (okD (createGridComposite [some ⟨200, 100⟩, some ⟨100, 200⟩]
        (.obj ⟨2, 1, some "2x4-vertical-2"⟩) 300 2 (some 3)) dummyOutput).maxCellHeightInches
      = 3 :=
  ⟨by with_unfolding_all rfl,
   cell_sizing_max_seeded [some ⟨200, 100⟩, some ⟨100, 200⟩]
     ⟨2, 1, some "2x4-vertical-2"⟩ 300 2 (some 3) _ (by with_unfolding_all rfl),
   by with_unfolding_all decide,
   by with_unfolding_all decide⟩

/-- The AspectPreserve drawing contract of one placement: the source
rectangle is the whole image (no cropping); when the image is wider than
the cell it is fitted to the cell width (`draw_w = cell.w`, `draw_h =
cell.w/img_aspect`) and centered vertically, otherwise fitted to the cell
height (`draw_h = cell.h`, `draw_w = cell.h*img_aspect`) and centered
horizontally; hence the destination rectangle has exactly the source
aspect ratio and lies inside the cell (so the rest of the cell keeps the
background fill). -/
lemma placeOne_spec (rows : ℕ) (cW cH m : ℤ) (i : ℕ) (img : ImageDim)
    (hw : 0 < cW) (hh : 0 < cH) :
    (placeOne rows cW cH m i img).srcX = 0 ∧
    (placeOne rows cW cH m i img).srcY = 0 ∧
    (placeOne rows cW cH m i img).srcW = (img.width : ℚ) ∧
    (placeOne rows cW cH m i img).srcH = (img.height : ℚ) ∧
    (placeOne rows cW cH m i img).drawW / (placeOne rows cW cH m i img).drawH
      = (img.width : ℚ) / (img.height : ℚ) ∧
    (imgAspect img > (cW : ℚ) / (cH : ℚ) →
      (placeOne rows cW cH m i img).drawW = (cW : ℚ) ∧
      (placeOne rows cW cH m i img).drawH = (cW : ℚ) / imgAspect img ∧
      (placeOne rows cW cH m i img).drawX = ((placeOne rows cW cH m i img).cellX : ℚ) ∧
      (placeOne rows cW cH m i img).drawY = ((placeOne rows cW cH m i img).cellY : ℚ)
        + ((cH : ℚ) - (placeOne rows cW cH m i img).drawH) / 2) ∧
    (¬ imgAspect img > (cW : ℚ) / (cH : ℚ) →
      (placeOne rows cW cH m i img).drawH = (cH : ℚ) ∧
      (placeOne rows cW cH m i img).drawW = (cH : ℚ) * imgAspect img ∧
      (placeOne rows cW cH m i img).drawY = ((placeOne rows cW cH m i img).cellY : ℚ) ∧
      (placeOne rows cW cH m i img).drawX = ((placeOne rows cW cH m i img).cellX : ℚ)
        + ((cW : ℚ) - (placeOne rows cW cH m i img).drawW) / 2) ∧
    ((placeOne rows cW cH m i img).cellX : ℚ) ≤ (placeOne rows cW cH m i img).drawX ∧
    (placeOne rows cW cH m i img).drawX + (placeOne rows cW cH m i img).drawW
      ≤ ((placeOne rows cW cH m i img).cellX : ℚ) + (cW : ℚ) ∧
    ((placeOne rows cW cH m i img).cellY : ℚ) ≤ (placeOne rows cW cH m i img).drawY ∧
    (placeOne rows cW cH m i img).drawY + (placeOne rows cW cH m i img).drawH
      ≤ ((placeOne rows cW cH m i img).cellY : ℚ) + (cH : ℚ) := by
  have hwq : (0 : ℚ) < (cW : ℤ) := by exact_mod_cast hw
  have hhq : (0 : ℚ) < (cH : ℤ) := by exact_mod_cast hh
  have ha0 : 0 ≤ imgAspect img := div_nonneg (Nat.cast_nonneg _) (Nat.cast_nonneg _)
  have hca : (0 : ℚ) < (cW : ℚ) / (cH : ℚ) := div_pos hwq hhq
  unfold placeOne
  dsimp only
  split
  · rename_i ha
    have hApos : 0 < imgAspect img := lt_trans hca ha
    have h1 : (cW : ℚ) < imgAspect img * (cH : ℚ) := (div_lt_iff₀ hhq).mp ha
    have hdh : (cW : ℚ) / imgAspect img ≤ (cH : ℚ) := by
      rw [div_le_iff₀ hApos]
      nlinarith
    have hdh0 : 0 < (cW : ℚ) / imgAspect img := div_pos hwq hApos
    refine ⟨rfl, rfl, rfl, rfl, ?_, fun _ => ⟨rfl, rfl, rfl, rfl⟩,
      fun hn => absurd ha hn, le_refl _, le_of_eq rfl, ?_, ?_⟩
    · have : (cW : ℚ) / ((cW : ℚ) / imgAspect img) = imgAspect img := by
        rw [div_div_eq_mul_div, mul_comm, mul_div_assoc, div_self (ne_of_gt hwq), mul_one]
      exact this.trans rfl
    · linarith
    · linarith
  · rename_i ha
    have ha' : imgAspect img ≤ (cW : ℚ) / (cH : ℚ) := le_of_not_lt ha
    have h1 : imgAspect img * (cH : ℚ) ≤ (cW : ℚ) := (le_div_iff₀ hhq).mp ha'
    have h2 : 0 ≤ (cH : ℚ) * imgAspect img := mul_nonneg (le_of_lt hhq) ha0
    refine ⟨rfl, rfl, rfl, rfl, ?_, fun hc => absurd hc ha,
      fun _ => ⟨rfl, rfl, rfl, rfl⟩, ?_, ?_, le_refl _, le_of_eq rfl⟩
    · have : ((cH : ℚ) * imgAspect img) / (cH : ℚ) = imgAspect img := by
        rw [mul_comm, mul_div_assoc, div_self (ne_of_gt hhq), mul_one]
      exact this.trans rfl
    · nlinarith
    · nlinarith

/-- C6: AspectPreserve drawing never crops: every placement of a successful
composition (with positive cell pixel sizes) passes the whole source image
to `drawImage`; if `img_aspect > cell_aspect` it is fitted to the cell
width (`draw_w = cell.w`, `draw_h = cell.w/img_aspect`) and centered
vertically (`draw_y = cell.y + (cell.h - draw_h)/2`), otherwise fitted to
the cell height and centered horizontally; consequently the destination
rectangle's aspect ratio `draw_w/draw_h` equals the source image's
`width/height` exactly (hence within any tolerance) and the rectangle lies
inside its cell — the residual cell area keeps the white background
fill. -/
theorem aspect_preserve_no_crop
    (photos : List (Option ImageDim)) (g : GridObj) (dpi mp : ℚ) (mcwo : Option ℚ)
    (out : CompositeOutput)
    (h : createGridComposite photos (.obj g) dpi mp mcwo = .ok out)
    (hw : 0 < out.cellWidthPx) (hh : 0 < out.cellHeightPx) :
    out.background = "#FFFFFF" ∧
    ∀ p ∈ out.placements,
      p.srcX = 0 ∧ p.srcY = 0 ∧
      p.srcW = (p.img.width : ℚ) ∧ p.srcH = (p.img.height : ℚ) ∧
      p.drawW / p.drawH = (p.img.width : ℚ) / (p.img.height : ℚ) ∧
      (imgAspect p.img > (out.cellWidthPx : ℚ) / (out.cellHeightPx : ℚ) →
        p.drawW = (out.cellWidthPx : ℚ) ∧
        p.drawH = (out.cellWidthPx : ℚ) / imgAspect p.img ∧
        p.drawX = (p.cellX : ℚ) ∧
        p.drawY = (p.cellY : ℚ) + ((out.cellHeightPx : ℚ) - p.drawH) / 2) ∧
      (¬ imgAspect p.img > (out.cellWidthPx : ℚ) / (out.cellHeightPx : ℚ) →
        p.drawH = (out.cellHeightPx : ℚ) ∧
        p.drawW = (out.cellHeightPx : ℚ) * imgAspect p.img ∧
        p.drawY = (p.cellY : ℚ) ∧
        p.drawX = (p.cellX : ℚ) + ((out.cellWidthPx : ℚ) - p.drawW) / 2) ∧
      (p.cellX : ℚ) ≤ p.drawX ∧
      p.drawX + p.drawW ≤ (p.cellX : ℚ) + (out.cellWidthPx : ℚ) ∧
      (p.cellY : ℚ) ≤ p.drawY ∧
      p.drawY + p.drawH ≤ (p.cellY : ℚ) + (out.cellHeightPx : ℚ) := by
  obtain ⟨g', images, hg, _, _, _, _, _, hout⟩ := createGridComposite_ok h
  injection hg with hg'
  subst hg'
  subst hout
  refine ⟨composeLoaded_background _ _ _ _ _, ?_⟩
  intro p hp
  rw [composeLoaded_placements] at hp
  obtain ⟨q, hq, rfl⟩ := List.mem_map.mp hp
  rw [placeOne_img]
  exact placeOne_spec _ _ _ _ _ _ hw hh

/-- C6 witness: one portrait (100×200) photo on the `4x6-single` grid with
`max_cell_width_in = 3`: the 900×900 cell is positive, and the placement
fits the image to the cell height, centers it horizontally and keeps the
exact aspect ratio. -/
theorem aspect_preserve_no_crop_witness :
    createGridComposite [some ⟨100, 200⟩] (.obj ⟨1, 1, some "4x6-single"⟩) 300 2 (some 3)
      = .ok (okD (createGridComposite [some ⟨100, 200⟩] (.obj ⟨1, 1, some "4x6-single"⟩)
          300 2 (some 3)) dummyOutput) ∧
    0 < (okD (createGridComposite [some ⟨100, 200⟩] (.obj ⟨1, 1, some "4x6-single"⟩)
        300 2 (some 3)) dummyOutput).cellWidthPx ∧
    0 < (okD (createGridComposite [some ⟨100, 200⟩] (.obj ⟨1, 1, some "4x6-single"⟩)
        300 2 (some 3)) dummyOutput).cellHeightPx ∧
    ((okD (createGridComposite [some ⟨100, 200⟩] (.obj ⟨1, 1, some "4x6-single"⟩)
        300 2 (some 3)) dummyOutput).background = "#FFFFFF" ∧
     ∀ p ∈ (okD (createGridComposite [some ⟨100, 200⟩] (.obj ⟨1, 1, some "4x6-single"⟩)
        300 2 (some 3)) dummyOutput).placements,
      p.srcX = 0 ∧ p.srcY = 0 ∧
      p.srcW = (p.img.width : ℚ) ∧ p.srcH = (p.img.height : ℚ) ∧
      p.drawW / p.drawH = (p.img.width : ℚ) / (p.img.height : ℚ) ∧
      (imgAspect p.img > ((okD (createGridComposite [some ⟨100, 200⟩]
            (.obj ⟨1, 1, some "4x6-single"⟩) 300 2 (some 3)) dummyOutput).cellWidthPx : ℚ)
          / ((okD (createGridComposite [some ⟨100, 200⟩]
            (.obj ⟨1, 1, some "4x6-single"⟩) 300 2 (some 3)) dummyOutput).cellHeightPx : ℚ) →
        p.drawW = ((okD (createGridComposite [some ⟨100, 200⟩]
            (.obj ⟨1, 1, some "4x6-single"⟩) 300 2 (some 3)) dummyOutput).cellWidthPx : ℚ) ∧
        p.drawH = ((okD (createGridComposite [some ⟨100, 200⟩]
            (.obj ⟨1, 1, some "4x6-single"⟩) 300 2 (some 3)) dummyOutput).cellWidthPx : ℚ)
          / imgAspect p.img ∧
        p.drawX = (p.cellX : ℚ) ∧
        p.drawY = (p.cellY : ℚ) + (((okD (createGridComposite [some ⟨100, 200⟩]
            (.obj ⟨1, 1, some "4x6-single"⟩) 300 2 (some 3)) dummyOutput).cellHeightPx : ℚ)
          - p.drawH) / 2) ∧
      (¬ imgAspect p.img > ((okD (createGridComposite [some ⟨100, 200⟩]
            (.obj ⟨1, 1, some "4x6-single"⟩) 300 2 (some 3)) dummyOutput).cellWidthPx : ℚ)
          / ((okD (createGridComposite [some ⟨100, 200⟩]
            (.obj ⟨1, 1, some "4x6-single"⟩) 300 2 (some 3)) dummyOutput).cellHeightPx : ℚ) →
        p.drawH = ((okD (createGridComposite [some ⟨100, 200⟩]
            (.obj ⟨1, 1, some "4x6-single"⟩) 300 2 (some 3)) dummyOutput).cellHeightPx : ℚ) ∧
        p.drawW = ((okD (createGridComposite [some ⟨100, 200⟩]
            (.obj ⟨1, 1, some "4x6-single"⟩) 300 2 (some 3)) dummyOutput).cellHeightPx : ℚ)
          * imgAspect p.img ∧
        p.drawY = (p.cellY : ℚ) ∧
        p.drawX = (p.cellX : ℚ) + (((okD (createGridComposite [some ⟨100, 200⟩]
            (.obj ⟨1, 1, some "4x6-single"⟩) 300 2 (some 3)) dummyOutput).cellWidthPx : ℚ)
          - p.drawW) / 2) ∧
      (p.cellX : ℚ) ≤ p.drawX ∧
      p.drawX + p.drawW ≤ (p.cellX : ℚ)
        + ((okD (createGridComposite [some ⟨100, 200⟩] (.obj ⟨1, 1, some "4x6-single"⟩)
            300 2 (some 3)) dummyOutput).cellWidthPx : ℚ) ∧
      (p.cellY : ℚ) ≤ p.drawY ∧
      p.drawY + p.drawH ≤ (p.cellY : ℚ)
        + ((okD (createGridComposite [some ⟨100, 200⟩] (.obj ⟨1, 1, some "4x6-single"⟩)
            300 2 (some 3)) dummyOutput).cellHeightPx : ℚ)) :=
  ⟨by with_unfolding_all rfl,
   by with_unfolding_all decide,
   by with_unfolding_all decide,
   aspect_preserve_no_crop [some ⟨100, 200⟩] ⟨1, 1, some "4x6-single"⟩ 300 2 (some 3) _
     (by with_unfolding_all rfl) (by with_unfolding_all decide)
     (by with_unfolding_all decide)⟩
